import Mathlib

/-!
Verification of the OpenDR toolkit spec claims against a shallow embedding of
the repository's Python source.

Conventions of the embedding:
* Python floats are idealised as exact rationals (`ℚ`); Python ints as `ℤ`;
  sizes as `ℕ`.
* `numpy` arrays and Python lists become Lean `List`s.
* Fallible Python code (raising exceptions) returns `Except PyError _`.
* Third-party library calls (the Whisper model, torch NMS, the trained FSeq2
  network, IoU helpers living outside the embedded files) are abstracted as
  function parameters, so theorems quantify over them.
-/

/-- Python exceptions raised by the embedded code. -/
inductive PyError where
  | valueError (msg : String)
  | typeError (msg : String)
  | attributeError (msg : String)
  | notImplementedError
  deriving Repr, DecidableEq

/-! ## Bridge data model (projects/opendr_ws_2/src/opendr_ros2_bridge/opendr_ros2_bridge/bridge.py)

OpenDR data holders (`engine.target.BoundingBox`, `Pose`) are plain containers;
they are embedded as structures of their fields as used by the bridge. -/

/-- `engine.target.BoundingBox`: a 2D box with a class name, position, size and
confidence.  Class names are restricted to integers as in claim C3; the bridge
stores `str(name)` in the ROS message and parses it back with
`int(float(id.strip('][').split(', ')[0]))`, which is the identity on the
decimal string of an integer, so the embedding carries the integer directly. -/
structure BoundingBox where
  name : ℤ
  left : ℚ
  top : ℚ
  width : ℚ
  height : ℚ
  confidence : ℚ
  deriving Repr, DecidableEq

/-- `vision_msgs.msg.ObjectHypothesisWithPose`: its fields are `id`, `score`
and `pose` (the pose is never touched by the bridge and is omitted).  It has
no field named `confidence`. -/
structure ObjectHypothesisWithPose where
  id : ℤ
  score : ℚ
  deriving Repr, DecidableEq

/-- Python attribute access on an `ObjectHypothesisWithPose` message for a
`float`-valued attribute: only `score` exists; any other name raises
`AttributeError` (returns `none`). -/
def hypothesisFloatAttr (h : ObjectHypothesisWithPose) (attr : String) : Option ℚ :=
  if attr = "score" then some h.score else none

/-- `vision_msgs.msg.Detection2D` as used by the bridge: a `BoundingBox2D`
(center x/y, size x/y) plus the list of hypotheses in `results`. -/
structure Detection2D where
  centerX : ℚ
  centerY : ℚ
  sizeX : ℚ
  sizeY : ℚ
  results : List ObjectHypothesisWithPose
  deriving Repr, DecidableEq

/-- Python truthiness of a float: `if x:` is `x ≠ 0.0`. -/
def pyTruthy (x : ℚ) : Bool := x ≠ 0

/-- `ROS2Bridge.to_ros_boxes`: each box becomes a `Detection2D` whose bbox
center is `(left + width/2, top + height/2)`, whose size is `(width, height)`,
whose single hypothesis id is `str(box.name)` and whose score is written only
when `box.confidence` is truthy (the message field defaults to `0.0`). -/
def to_ros_boxes (box_list : List BoundingBox) : List Detection2D :=
  box_list.map (fun box =>
    { centerX := box.left + box.width / 2
      centerY := box.top + box.height / 2
      sizeX := box.width
      sizeY := box.height
      results := [{ id := box.name
                    score := if pyTruthy box.confidence then box.confidence else 0 }] })

/-- `ROS2Bridge.from_ros_boxes`: inverts the center/size encoding
(`left = center.x - size_x/2`, `top = center.y - size_y/2`) and parses the
hypothesis id back to an integer name; the rebuilt `BoundingBox` gets the
default score `0` (the source passes no `score`). -/
def from_ros_boxes (ros_detections : List Detection2D) : List BoundingBox :=
  ros_detections.map (fun box =>
    { name := (box.results.headD { id := 0, score := 0 }).id
      left := box.centerX - box.sizeX / 2
      top := box.centerY - box.sizeY / 2
      width := box.sizeX
      height := box.sizeY
      confidence := 0 })

/-- `ROS2Bridge.to_ros_bounding_box_list`: like `to_ros_boxes` but the score is
written unconditionally (`detection.results[0].score = float(confidence)`). -/
def to_ros_bounding_box_list (bounding_box_list : List BoundingBox) : List Detection2D :=
  bounding_box_list.map (fun b =>
    { centerX := b.left + b.width / 2
      centerY := b.top + b.height / 2
      sizeX := b.width
      sizeY := b.height
      results := [{ id := b.name, score := b.confidence }] })

/-- `ROS2Bridge.from_ros_bounding_box_list`: reads
`detection.results[0].confidence`, an attribute that
`ObjectHypothesisWithPose` does not have, so any nonempty detection list
raises `AttributeError`; on the empty list the loop body never runs. -/
def from_ros_bounding_box_list (dets : List Detection2D) :
    Except PyError (List BoundingBox) := do
  let boxes ← dets.mapM (fun detection => do
    let hyp := detection.results.headD { id := 0, score := 0 }
    match hypothesisFloatAttr hyp "confidence" with
    | none => Except.error (.attributeError "ObjectHypothesisWithPose has no attribute confidence")
    | some score =>
        Except.ok ({ name := hyp.id
                     left := detection.centerX - detection.sizeX / 2
                     top := detection.centerY - detection.sizeY / 2
                     width := detection.sizeX
                     height := detection.sizeY
                     confidence := score } : BoundingBox))
  return boxes

/-! ### Poses -/

/-- `engine.target.Pose` as the bridge uses it: keypoint data (an N×2 array),
a pose id and a detection confidence. -/
structure Pose where
  data : List (ℚ × ℚ)
  id : ℤ
  confidence : ℚ
  deriving Repr, DecidableEq

/-- `opendr_ros2_messages.msg.OpenDRPose2D`: integer keypoint coordinates, a
pose id and a confidence (message default `0.0`). -/
structure OpenDRPose2D where
  pose_id : ℤ
  conf : ℚ
  keypoints : List (ℤ × ℤ)
  deriving Repr, DecidableEq

/-- Python `int()` on a float: truncation toward zero. -/
def pyInt (q : ℚ) : ℤ := if 0 ≤ q then ⌊q⌋ else ⌈q⌉

/-- `ROS2Bridge.to_ros_pose`: keypoints are truncated to ints
(`int(data[i][0])`, `int(data[i][1])`); the confidence is written only when
truthy; the pose id is `int(pose.id)`. -/
def to_ros_pose (pose : Pose) : OpenDRPose2D :=
  { pose_id := pose.id
    conf := if pyTruthy pose.confidence then pose.confidence else 0
    keypoints := pose.data.map (fun p => (pyInt p.1, pyInt p.2)) }

/-- `ROS2Bridge.from_ros_pose`: flattens the keypoints, reshapes to N×2 and
rebuilds the `Pose` with the message confidence and pose id.  Flattening the
(x, y) pairs and reshaping `(-1, 2)` is the identity on the pair list. -/
def from_ros_pose (ros_pose : OpenDRPose2D) : Pose :=
  { data := ros_pose.keypoints.map (fun p => ((p.1 : ℚ), (p.2 : ℚ)))
    id := ros_pose.pose_id
    confidence := ros_pose.conf }

/-! ### Meshes -/

/-- `geometry_msgs.msg.Point`. -/
structure Point where
  x : ℚ
  y : ℚ
  z : ℚ
  deriving Repr, DecidableEq

/-- `shape_msgs.msg.MeshTriangle`: three vertex indices. -/
structure MeshTriangle where
  i0 : ℤ
  i1 : ℤ
  i2 : ℤ
  deriving Repr, DecidableEq

/-- `shape_msgs.msg.Mesh`. -/
structure Mesh where
  vertices : List Point
  triangles : List MeshTriangle
  deriving Repr, DecidableEq

/-- `ROS2Bridge.to_ros_mesh`: copies each vertex row into a `Point` and each
face row (cast with `int`) into a `MeshTriangle`. -/
def to_ros_mesh (vertices : List (ℚ × ℚ × ℚ)) (faces : List (ℤ × ℤ × ℤ)) : Mesh :=
  { vertices := vertices.map (fun v => { x := v.1, y := v.2.1, z := v.2.2 })
    triangles := faces.map (fun f => { i0 := f.1, i1 := f.2.1, i2 := f.2.2 }) }

/-- `ROS2Bridge.from_ros_mesh`: reads each `Point` back into a vertex row and
each `MeshTriangle` back into an integer face row. -/
def from_ros_mesh (mesh_ROS : Mesh) : List (ℚ × ℚ × ℚ) × List (ℤ × ℤ × ℤ) :=
  (mesh_ROS.vertices.map (fun p => (p.x, p.y, p.z)),
   mesh_ROS.triangles.map (fun t => (t.i0, t.i1, t.i2)))

/-! ## FSeq2-NMS (src/opendr/perception/object_detection_2d/nms/fseq2_nms/fseq2_nms_learner.py)

Candidate detections are boxes in `(x1, y1, x2, y2)` corner format with a
score.  The trained scoring network (`self.model`), the torchvision greedy NMS
helper (`apply_torchNMS` from `nms.utils.nms_utils`) and the IoU helper
(`bb_intersection_over_union`) are third-party / out-of-file code and appear
as function parameters. -/

/-- A candidate detection box in `(x1, y1, x2, y2)` corner format. -/
structure Box where
  x1 : ℚ
  y1 : ℚ
  x2 : ℚ
  y2 : ℚ
  deriving Repr, DecidableEq, Inhabited

/-- `self.geom_input_dim = 14` set in `FSeq2NMSLearner.__init__`. -/
def geom_input_dim : ℕ := 14

/-- One step of the stable descending insertion modelling `torch.sort(...,
descending=True)`: `x` is inserted after every element whose score is at
least `x`'s. -/
def insertDesc (x : Box × ℚ) : List (Box × ℚ) → List (Box × ℚ)
  | [] => [x]
  | y :: ys => if y.2 ≥ x.2 then y :: insertDesc x ys else x :: y :: ys

/-- `torch.sort(scores, dim=0, descending=True)` together with the reindexing
`boxes = boxes[scores_ids]`: the (box, score) pairs sorted by descending
score. -/
def sortDescByScore (l : List (Box × ℚ)) : List (Box × ℚ) :=
  l.foldr insertDesc []

/-- The candidate pre-filtering pipeline inside `FSeq2NMSLearner.infer`,
applied to the zipped (box, score) candidates before the network runs:
`scores > 0.05`, descending sort when `boxes_sorted` is false, width and
height `> 4`, greedy IoU filtering by `apply_torchNMS` when
`0 < iou_filtering < 1`, and truncation to the first `max_dt_boxes`. -/
def fseq2Survivors (applyTorchNMS : List (Box × ℚ) → ℚ → List (Box × ℚ))
    (iou_filtering : Option ℚ) (boxes : List Box) (scores : List ℚ)
    (boxes_sorted : Bool) (max_dt_boxes : ℕ) : List (Box × ℚ) :=
  let pairs := (boxes.zip scores).filter (fun p => decide (p.2 > 1/20))
  let pairs := if boxes_sorted then pairs else sortDescByScore pairs
  let pairs := pairs.filter
    (fun p => decide (p.1.x2 - p.1.x1 > 4) && decide (p.1.y2 - p.1.y1 > 4))
  let pairs := match iou_filtering with
    | some v => if 0 < v ∧ v < 1 then applyTorchNMS pairs v else pairs
    | none => pairs
  pairs.take max_dt_boxes

/-- The two return shapes of `FSeq2NMSLearner.infer`: the bare
`BoundingBoxList` returned when `scores.shape[0] == 0`, and the pair of the
`BoundingBoxList` with the list `[boxes, np.zeros(scores.shape[0]), preds]`
returned otherwise. -/
inductive FSeq2InferReturn where
  | bare (bounding_boxes : List BoundingBox)
  | full (bounding_boxes : List BoundingBox) (boxes : List Box)
      (zeros : List ℚ) (preds : List ℚ)
  deriving Repr, DecidableEq

/-- `FSeq2NMSLearner.infer`.  `model` is the trained scoring network as a
function of the surviving boxes and scores (in the source it receives the
geometric features and mask computed from exactly these survivors);
`applyTorchNMS` is `nms.utils.nms_utils.apply_torchNMS`; `scoreCols` is
`scores.shape[1]`.  The source's `if mask.size == 0` branch compares the
bound method `Tensor.size` with `0`, which is never true, so it is dead code
and has no counterpart here. -/
def fseq2_infer (model : List Box → List ℚ → List ℚ)
    (applyTorchNMS : List (Box × ℚ) → ℚ → List (Box × ℚ))
    (iou_filtering : Option ℚ) (boxes : List Box) (scores : List ℚ)
    (scoreCols : ℕ) (boxes_sorted : Bool) (max_dt_boxes : ℕ) (threshold : ℚ) :
    Except PyError FSeq2InferReturn :=
  if scores.length = 0 then .ok (.bare [])
  else if scoreCols > 1 then
    .error (.valueError "Multi-class NMS is not supported in Seq2Seq-NMS yet.")
  else if boxes.length ≠ scores.length then
    .error (.valueError "Scores and boxes must have the same size in dim 0.")
  else
    let pairs := fseq2Survivors applyTorchNMS iou_filtering boxes scores
      boxes_sorted max_dt_boxes
    let survBoxes := pairs.map (·.1)
    let survScores := pairs.map (·.2)
    let preds := model survBoxes survScores
    let kept := (survBoxes.zip preds).filter (fun p => decide (p.2 > threshold))
    .ok (.full
      (kept.map (fun p =>
        { name := 0, left := p.1.x1, top := p.1.y1,
          width := p.1.x2 - p.1.x1, height := p.1.y2 - p.1.y1,
          confidence := p.2 }))
      (kept.map (·.1))
      (List.replicate survScores.length 0)
      (kept.map (·.2)))

/-- The 14-dimensional geometric feature vector computed by
`FSeq2NMSLearner.compute_geometrical_feats` for the ordered pair (A, B) of
(box, score) candidates, in the `torch.cat` order
`(dx, dy, dxy, sx_1, sx_2, sy_1, sy_2, ious, scl_1, scl_2, scr_1, scr_2,
sr_1, sr_2)`.  `iou` is `bb_intersection_over_union`; `resolution` is the
`img_res` argument, with `scale_div = [resolution[1]/20, resolution[0]/20]`. -/
def featVec (iou : Box → Box → ℚ) (resolution : ℚ × ℚ) (A B : Box × ℚ) : List ℚ :=
  let scale0 := resolution.2 / 20
  let scale1 := resolution.1 / 20
  let dx := (B.1.x1 - A.1.x1 + B.1.x2 - A.1.x2) / 2
  let dy := (B.1.y1 - A.1.y1 + B.1.y2 - A.1.y2) / 2
  let dxy := (dx * dx + dy * dy) / (scale0 * scale0 + scale1 * scale1)
  let sx := B.1.x2 - B.1.x1
  let sy := B.1.y2 - B.1.y1
  let scl := (B.1.x2 - B.1.x1) * (B.1.y2 - B.1.y1)
  let scr1 := 5 * B.2
  let sr1 := (B.1.y2 - B.1.y1) / (B.1.x2 - B.1.x1)
  [dx / scale0, dy / scale1, dxy,
   sx / (A.1.x2 - A.1.x1), sx / scale0,
   sy / (A.1.y2 - A.1.y1), sy / scale1,
   5 * iou A.1 B.1,
   scl / ((A.1.x2 - A.1.x1) * (A.1.y2 - A.1.y1)), scl / (scale0 * scale1),
   scr1, scr1 - 5 * A.2,
   sr1, sr1 / ((A.1.y2 - A.1.y1) / (A.1.x2 - A.1.x1))]

/-- `FSeq2NMSLearner.compute_geometrical_feats`: the broadcasting
`unsqueeze/repeat` pattern builds, for candidates `pairs = zip boxes scores`,
the n×n×14 tensor `enc_vers_all` with entry (i, j) the feature vector of the
ordered pair (pairs[i], pairs[j]), and `enc_vers` as its diagonal
(`diagonal(dim1=0, dim2=1).transpose(0, 1).unsqueeze(1)`), of shape n×1×14. -/
def compute_geometrical_feats (iou : Box → Box → ℚ) (boxes : List Box)
    (scores : List ℚ) (resolution : ℚ × ℚ) :
    List (List (List ℚ)) × List (List (List ℚ)) :=
  let pairs := boxes.zip scores
  let enc_vers_all := pairs.map (fun A => pairs.map (fun B => featVec iou resolution A B))
  let enc_vers := (List.range pairs.length).map
    (fun i => [(enc_vers_all.getD i []).getD i []])
  (enc_vers, enc_vers_all)

/-! ## WhisperLearner (src/opendr/perception/speech_transcription/whisper/whisper_learner.py)

The Whisper model itself (`self.model.transcribe`) and `whisper.load_audio`
are third-party code and appear as function parameters. -/

/-- `engine.target.WhisperTranscription`: the decoded text together with the
segments.  Segment contents are opaque to the wrapper and kept abstract as
strings. -/
structure WhisperTranscription where
  text : String
  segments : List String
  deriving Repr, DecidableEq

/-- The audio argument of `WhisperLearner.infer`, one constructor per Python
type the method dispatches on; `other` stands for a value of any further
type. -/
inductive WhisperAudio where
  | timeseries (data : List ℚ)
  | ndarray (data : List ℚ)
  | tensor (data : List ℚ)
  | filePath (path : String)
  | other
  deriving Repr, DecidableEq

/-- `WhisperLearner.infer`: dispatches on the type of `audio` (a `Timeseries`
is flattened with `reshape(-1)`, identity on a 1-D signal; a string is read
with `whisper.load_audio`), runs `self.model.transcribe` on the resulting
data and wraps the text and segments in a `WhisperTranscription`; any other
type raises `TypeError` before the model is invoked. -/
def whisper_infer (transcribe : List ℚ → String × List String)
    (load_audio : String → List ℚ) (audio : WhisperAudio) :
    Except PyError WhisperTranscription :=
  match audio with
  | .timeseries data =>
      let r := transcribe data
      .ok { text := r.1, segments := r.2 }
  | .ndarray data =>
      let r := transcribe data
      .ok { text := r.1, segments := r.2 }
  | .tensor data =>
      let r := transcribe data
      .ok { text := r.1, segments := r.2 }
  | .filePath path =>
      let r := transcribe (load_audio path)
      .ok { text := r.1, segments := r.2 }
  | .other =>
      .error (.typeError "batch must be a timeseries, torch.tensor or np.ndarray")

/-- `WhisperLearner.save`: its body is `pass`; it writes nothing and returns
`None`. -/
def whisper_save : Except PyError Unit := .ok ()

/-- `WhisperLearner.fit`: its body is `return`; it trains nothing and returns
`None`. -/
def whisper_fit : Except PyError Unit := .ok ()

/-- `WhisperLearner.load`: `name=None` raises `ValueError`, otherwise the
model produced by `whisper.load_model` (a parameter here) is stored. -/
def whisper_load (load_model : String → String → Bool → α)
    (name : Option String) (download_dir : String) (in_memory : Bool) :
    Except PyError α :=
  match name with
  | none => .error (.valueError "Please specify a model name or path to model checkpoint.")
  | some n => .ok (load_model n download_dir in_memory)

/-! ## ContinualSLAMLearner (src/opendr/perception/continual_slam/continual_slam_learner.py)

The `DepthPosePredictor` (`adapt` / `predict`) is out-of-file code and is
abstracted; `Batch` and `Prediction` are type parameters. -/

/-- The `mode` argument of `ContinualSLAMLearner.__init__`. -/
inductive CSLAMMode where
  | predictor
  | learner
  deriving Repr, DecidableEq

/-- `ContinualSLAMLearner.fit`: delegates to `self._fit` (which calls
`self.learner.adapt`) in learner mode and raises `ValueError` otherwise. -/
def cslam_fit (adapt : β → π) (mode : CSLAMMode) (batch : β) : Except PyError π :=
  match mode with
  | .learner => .ok (adapt batch)
  | .predictor => .error (.valueError "Fit is only available in learner mode")

/-- `ContinualSLAMLearner.infer`: delegates to `self._predict` (which calls
`self.predictor.predict`) in predictor mode and raises `ValueError`
otherwise. -/
def cslam_infer (predict : β → π) (mode : CSLAMMode) (batch : β) : Except PyError π :=
  match mode with
  | .predictor => .ok (predict batch)
  | .learner => .error (.valueError "Inference is only available in predictor mode")

/-- `ContinualSLAMLearner.save`: its body is `raise NotImplementedError`. -/
def cslam_save (_path : String) (_verbose : Bool) : Except PyError Unit :=
  .error .notImplementedError

/-- `ContinualSLAMLearner.load`: its body is `raise NotImplementedError`. -/
def cslam_load (_path : String) (_verbose : Bool) : Except PyError Unit :=
  .error .notImplementedError

/-! ## Theorems -/

/-- C3: for every `BoundingBoxList` with integer class names,
`from_ros_boxes (to_ros_boxes list)` returns the same number of boxes in the
same order, each with the same `left`, `top`, `width`, `height` and `name`
as the original (only the confidence, which the claim does not mention, is
reset to the default `0`): the center/size encoding of `Detection2D` is
inverted exactly. -/
theorem from_to_ros_boxes_roundtrip (box_list : List BoundingBox) :
    from_ros_boxes (to_ros_boxes box_list)
      = box_list.map (fun b => { b with confidence := 0 }) := by
  unfold from_ros_boxes to_ros_boxes
  rw [List.map_map]
  refine List.map_congr_left (fun b _ => ?_)
  simp only [Function.comp_apply, List.headD_cons]
  refine BoundingBox.mk.injEq .. ▸ ⟨rfl, by ring, by ring, rfl, rfl, rfl⟩

/-- C5: for every 2D `Pose` whose keypoint data consists of integer
coordinates and whose confidence is nonzero,
`from_ros_pose (to_ros_pose pose)` returns a `Pose` with identical keypoint
data, the same pose id and the same confidence. -/
theorem from_to_ros_pose_roundtrip (pose : Pose)
    (hdata : ∀ p ∈ pose.data, ∃ a b : ℤ, p = ((a : ℚ), (b : ℚ)))
    (hconf : pose.confidence ≠ 0) :
    from_ros_pose (to_ros_pose pose) = pose := by
  obtain ⟨data, id, confidence⟩ := pose
  simp only [from_ros_pose, to_ros_pose, List.map_map, Pose.mk.injEq]
  refine ⟨?_, ?_⟩
  · refine Eq.trans (List.map_congr_left (fun p hp => ?_)) (List.map_id data)
    obtain ⟨a, b, rfl⟩ := hdata p hp
    simp [pyInt, Function.comp]
  · simp only [pyTruthy] at hconf ⊢
    simp [hconf]

/-- Closed witness for `from_to_ros_pose_roundtrip` at a concrete pose with
integer keypoints and nonzero confidence. -/
theorem from_to_ros_pose_roundtrip_witness :
    from_ros_pose (to_ros_pose ⟨[(1, 2), (3, 4)], 7, 1/2⟩)
      = (⟨[(1, 2), (3, 4)], 7, 1/2⟩ : Pose) :=
  from_to_ros_pose_roundtrip ⟨[(1, 2), (3, 4)], 7, 1/2⟩
    (by
      intro p hp
      simp only [List.mem_cons, List.not_mem_nil, or_false] at hp
      rcases hp with h | h
      · exact ⟨1, 2, by rw [h]; norm_num⟩
      · exact ⟨3, 4, by rw [h]; norm_num⟩)
    (by norm_num)

/-- C6: for every N×3 vertex array and integer M×3 face array,
`from_ros_mesh (to_ros_mesh vertices faces)` returns vertex and face arrays
equal to the originals, element for element. -/
theorem from_to_ros_mesh_roundtrip (vertices : List (ℚ × ℚ × ℚ))
    (faces : List (ℤ × ℤ × ℤ)) :
    from_ros_mesh (to_ros_mesh vertices faces) = (vertices, faces) := by
  unfold from_ros_mesh to_ros_mesh
  simp only [List.map_map, Prod.mk.injEq]
  constructor
  · exact Eq.trans (List.map_congr_left (fun v _ => rfl)) (List.map_id vertices)
  · exact Eq.trans (List.map_congr_left (fun f _ => rfl)) (List.map_id faces)

/-- C8: `to_ros_bounding_box_list` writes each box's confidence into the
hypothesis field named `score`, while `from_ros_bounding_box_list` reads the
field named `confidence`, which does not exist on
`ObjectHypothesisWithPose`; hence for every nonempty `BoundingBoxList` the
round trip raises `AttributeError` and in particular never recovers the box
confidences from the `score` values that were written. -/
theorem from_to_ros_bounding_box_list_no_roundtrip (l : List BoundingBox)
    (hne : l ≠ []) :
    ((to_ros_bounding_box_list l).map
        (fun d => (d.results.headD { id := 0, score := 0 }).score)
      = l.map (·.confidence)) ∧
    from_ros_bounding_box_list (to_ros_bounding_box_list l)
      = .error (.attributeError
          "ObjectHypothesisWithPose has no attribute confidence") := by
  constructor
  · unfold to_ros_bounding_box_list
    rw [List.map_map]
    exact List.map_congr_left (fun b _ => rfl)
  · obtain ⟨b, tl, rfl⟩ := List.exists_cons_of_ne_nil hne
    rfl

/-- Closed witness for `from_to_ros_bounding_box_list_no_roundtrip` on a
one-box list. -/
theorem from_to_ros_bounding_box_list_no_roundtrip_witness :
    ((to_ros_bounding_box_list [⟨3, 1, 2, 10, 20, 9/10⟩]).map
        (fun d => (d.results.headD { id := 0, score := 0 }).score)
      = [⟨3, 1, 2, 10, 20, 9/10⟩].map (BoundingBox.confidence)) ∧
    from_ros_bounding_box_list (to_ros_bounding_box_list [⟨3, 1, 2, 10, 20, 9/10⟩])
      = .error (.attributeError
          "ObjectHypothesisWithPose has no attribute confidence") :=
  from_to_ros_bounding_box_list_no_roundtrip [⟨3, 1, 2, 10, 20, 9/10⟩]
    (by simp)

/-- C7: `WhisperLearner.infer` accepts audio given as a `Timeseries`, a numpy
array, a torch tensor or a file-path string and returns a
`WhisperTranscription` carrying the decoded text and segments; on an argument
of any other type it raises `TypeError` without invoking the model (the
result of the `other` branch does not depend on the model or audio loader). -/
theorem whisper_infer_dispatch (transcribe : List ℚ → String × List String)
    (load_audio : String → List ℚ) :
    (∀ d, whisper_infer transcribe load_audio (.timeseries d)
        = .ok { text := (transcribe d).1, segments := (transcribe d).2 }) ∧
    (∀ d, whisper_infer transcribe load_audio (.ndarray d)
        = .ok { text := (transcribe d).1, segments := (transcribe d).2 }) ∧
    (∀ d, whisper_infer transcribe load_audio (.tensor d)
        = .ok { text := (transcribe d).1, segments := (transcribe d).2 }) ∧
    (∀ p, whisper_infer transcribe load_audio (.filePath p)
        = .ok { text := (transcribe (load_audio p)).1
                segments := (transcribe (load_audio p)).2 }) ∧
    (whisper_infer transcribe load_audio .other
        = .error (.typeError "batch must be a timeseries, torch.tensor or np.ndarray")) ∧
    (∀ (transcribe2 : List ℚ → String × List String) (load_audio2 : String → List ℚ),
      whisper_infer transcribe2 load_audio2 .other
        = whisper_infer transcribe load_audio .other) :=
  ⟨fun _ => rfl, fun _ => rfl, fun _ => rfl, fun _ => rfl, rfl, fun _ _ => rfl⟩

/-- C1 counterexample: called with valid arguments, `ContinualSLAMLearner.save`
and `ContinualSLAMLearner.load` fail as unimplemented (`NotImplementedError`),
so not every Learner subclass provides functioning fit/infer/save/load. -/
theorem learner_interface_counterexample :
    cslam_save "./model" true = .error .notImplementedError ∧
    cslam_load "./model" true = .error .notImplementedError :=
  ⟨rfl, rfl⟩

/-- C1 (amended): `WhisperLearner` provides functioning `infer` and `load`,
but its `fit` and `save` are do-nothing stubs returning `None`;
`ContinualSLAMLearner` provides `fit` only in learner mode and `infer` only in
predictor mode (raising `ValueError` in the other mode), while its `save` and
`load` raise `NotImplementedError`. -/
theorem learner_interface_amended {α β π : Type}
    (adapt predict : β → π) (batch : β)
    (transcribe : List ℚ → String × List String) (load_audio : String → List ℚ)
    (d : List ℚ) (load_model : String → String → Bool → α)
    (name download_dir : String) (in_memory : Bool) (path : String) (verbose : Bool) :
    whisper_infer transcribe load_audio (.ndarray d)
      = .ok { text := (transcribe d).1, segments := (transcribe d).2 } ∧
    whisper_load load_model (some name) download_dir in_memory
      = .ok (load_model name download_dir in_memory) ∧
    whisper_fit = .ok () ∧
    whisper_save = .ok () ∧
    cslam_fit adapt .learner batch = .ok (adapt batch) ∧
    cslam_infer predict .predictor batch = .ok (predict batch) ∧
    cslam_fit adapt .predictor batch
      = .error (.valueError "Fit is only available in learner mode") ∧
    cslam_infer predict .learner batch
      = .error (.valueError "Inference is only available in predictor mode") ∧
    cslam_save path verbose = .error .notImplementedError ∧
    cslam_load path verbose = .error .notImplementedError :=
  ⟨rfl, rfl, rfl, rfl, rfl, rfl, rfl, rfl, rfl, rfl⟩

/-! ### Helper lemmas for the FSeq2 pipeline -/

lemma insertDesc_perm (x : Box × ℚ) (l : List (Box × ℚ)) :
    (insertDesc x l).Perm (x :: l) := by
  induction l with
  | nil => exact List.Perm.refl _
  | cons y ys ih =>
      by_cases h : y.2 ≥ x.2
      · simpa [insertDesc, h] using ((ih.cons y).trans (List.Perm.swap x y ys))
      · simp [insertDesc, h]

lemma sortDescByScore_perm (l : List (Box × ℚ)) :
    (sortDescByScore l).Perm l := by
  induction l with
  | nil => exact List.Perm.refl _
  | cons x xs ih =>
      exact (insertDesc_perm x (sortDescByScore xs)).trans (ih.cons x)

/-- Every survivor of the `FSeq2NMSLearner.infer` pre-filtering pipeline is an
input (box, score) candidate with score `> 0.05` and width and height `> 4`,
and at most `max_dt_boxes` survive, provided the greedy NMS helper only
removes candidates. -/
lemma fseq2Survivors_spec (applyTorchNMS : List (Box × ℚ) → ℚ → List (Box × ℚ))
    (hnms : ∀ l v, (applyTorchNMS l v).Sublist l)
    (iou_filtering : Option ℚ) (boxes : List Box) (scores : List ℚ)
    (boxes_sorted : Bool) (max_dt_boxes : ℕ) :
    (fseq2Survivors applyTorchNMS iou_filtering boxes scores boxes_sorted
        max_dt_boxes).length ≤ max_dt_boxes ∧
    ∀ p ∈ fseq2Survivors applyTorchNMS iou_filtering boxes scores boxes_sorted
        max_dt_boxes,
      p ∈ boxes.zip scores ∧ p.2 > 1/20 ∧ p.1.x2 - p.1.x1 > 4 ∧ p.1.y2 - p.1.y1 > 4 := by
  unfold fseq2Survivors
  refine ⟨List.length_take_le _ _, ?_⟩
  intro p hp
  have hp2 := (List.take_sublist _ _).mem hp
  have hp3 : p ∈ (if boxes_sorted then
        (boxes.zip scores).filter (fun p => decide (p.2 > 1/20))
      else sortDescByScore ((boxes.zip scores).filter (fun p => decide (p.2 > 1/20)))).filter
      (fun p => decide (p.1.x2 - p.1.x1 > 4) && decide (p.1.y2 - p.1.y1 > 4)) := by
    cases iou_filtering with
    | none => exact hp2
    | some v =>
        by_cases hv : 0 < v ∧ v < 1
        · simp only [hv, if_pos] at hp2
          exact (hnms _ v).mem hp2
        · simpa [hv] using hp2
  rw [List.mem_filter] at hp3
  obtain ⟨hp4, hsz⟩ := hp3
  have hp5 : p ∈ (boxes.zip scores).filter (fun p => decide (p.2 > 1/20)) := by
    by_cases hb : boxes_sorted
    · simpa [hb] using hp4
    · have := (by simpa [hb] using hp4 :
        p ∈ sortDescByScore ((boxes.zip scores).filter (fun p => decide (p.2 > 1/20))))
      exact (sortDescByScore_perm _).mem_iff.mp this
  rw [List.mem_filter] at hp5
  simp only [Bool.and_eq_true, decide_eq_true_eq] at hsz
  exact ⟨hp5.1, by simpa using hp5.2, hsz.1, hsz.2⟩

/-- C10: every bounding box returned by `FSeq2NMSLearner.infer` originates
from an input (box, score) candidate whose score exceeds `0.05` and whose
width and height each exceed `4` pixels; at most `max_dt_boxes` candidates
are kept for scoring (the zero array of the second return component has one
entry per scored candidate), so the returned `BoundingBoxList` never holds
more than `max_dt_boxes` boxes.  The hypothesis on `applyTorchNMS` records
that greedy NMS only removes candidates. -/
theorem fseq2_infer_provenance (model : List Box → List ℚ → List ℚ)
    (applyTorchNMS : List (Box × ℚ) → ℚ → List (Box × ℚ))
    (hnms : ∀ l v, (applyTorchNMS l v).Sublist l)
    (iou_filtering : Option ℚ) (boxes : List Box) (scores : List ℚ)
    (scoreCols : ℕ) (boxes_sorted : Bool) (max_dt_boxes : ℕ) (threshold : ℚ)
    (l : List BoundingBox) (kept : List Box) (zeros preds : List ℚ)
    (h : fseq2_infer model applyTorchNMS iou_filtering boxes scores scoreCols
        boxes_sorted max_dt_boxes threshold = .ok (.full l kept zeros preds)) :
    l.length ≤ max_dt_boxes ∧ zeros.length ≤ max_dt_boxes ∧
    ∀ bb ∈ l, ∃ p ∈ boxes.zip scores,
      p.2 > 1/20 ∧ p.1.x2 - p.1.x1 > 4 ∧ p.1.y2 - p.1.y1 > 4 ∧
      bb.left = p.1.x1 ∧ bb.top = p.1.y1 ∧
      bb.width = p.1.x2 - p.1.x1 ∧ bb.height = p.1.y2 - p.1.y1 := by
  obtain ⟨hlen, hmem⟩ := fseq2Survivors_spec applyTorchNMS hnms iou_filtering
    boxes scores boxes_sorted max_dt_boxes
  set pairs := fseq2Survivors applyTorchNMS iou_filtering boxes scores
    boxes_sorted max_dt_boxes with hpairs
  unfold fseq2_infer at h
  by_cases h0 : scores.length = 0
  · simp only [h0, if_pos] at h
    cases h
  · rw [if_neg h0] at h
    by_cases h1 : scoreCols > 1
    · rw [if_pos h1] at h
      cases h
    · rw [if_neg h1] at h
      by_cases h2 : boxes.length ≠ scores.length
      · rw [if_pos h2] at h
        cases h
      · rw [if_neg h2] at h
        simp only [Except.ok.injEq, FSeq2InferReturn.full.injEq, ← hpairs] at h
        obtain ⟨hl, hkept, hzeros, hpreds⟩ := h
        refine ⟨?_, ?_, ?_⟩
        · calc l.length
              ≤ ((pairs.map (·.1)).zip
                  (model (pairs.map (·.1)) (pairs.map (·.2)))).length := by
                rw [← hl, List.length_map]
                exact List.length_filter_le _ _
            _ ≤ (pairs.map (·.1)).length := by
                rw [List.length_zip]
                exact min_le_left _ _
            _ ≤ max_dt_boxes := by rw [List.length_map]; exact hlen
        · rw [← hzeros, List.length_replicate, List.length_map]
          exact hlen
        · intro bb hbb
          rw [← hl] at hbb
          rw [List.mem_map] at hbb
          obtain ⟨q, hq, rfl⟩ := hbb
          have hq2 := List.mem_filter.mp hq
          have hbox : q.1 ∈ pairs.map (·.1) := (List.of_mem_zip hq2.1).1
          rw [List.mem_map] at hbox
          obtain ⟨pr, hpr, hpr1⟩ := hbox
          obtain ⟨hprzip, hprs, hprw, hprh⟩ := hmem pr hpr
          exact ⟨pr, hprzip, hprs, hprw, hprh,
            by rw [← hpr1], by rw [← hpr1], by rw [← hpr1], by rw [← hpr1]⟩

/-- Closed witness for `fseq2_infer_provenance` on one concrete candidate, a
constant-one network and identity NMS. -/
theorem fseq2_infer_provenance_witness :
    ([(⟨0, 0, 0, 10, 10, 1⟩ : BoundingBox)]).length ≤ 400 ∧
    ([(0 : ℚ)]).length ≤ 400 ∧
    ∀ bb ∈ [(⟨0, 0, 0, 10, 10, 1⟩ : BoundingBox)],
      ∃ p ∈ ([⟨0, 0, 10, 10⟩] : List Box).zip [(1 : ℚ)/2],
        p.2 > 1/20 ∧ p.1.x2 - p.1.x1 > 4 ∧ p.1.y2 - p.1.y1 > 4 ∧
        bb.left = p.1.x1 ∧ bb.top = p.1.y1 ∧
        bb.width = p.1.x2 - p.1.x1 ∧ bb.height = p.1.y2 - p.1.y1 :=
  fseq2_infer_provenance (fun bs _ => bs.map (fun _ => 1)) (fun l _ => l)
    (fun l _ => List.Sublist.refl l) none [⟨0, 0, 10, 10⟩] [1/2] 1 true 400 (1/10)
    [⟨0, 0, 0, 10, 10, 1⟩] [⟨0, 0, 10, 10⟩] [0] [1]
    (by norm_num [fseq2_infer, fseq2Survivors, sortDescByScore, insertDesc, List.filter])

/-- C9: `FSeq2NMSLearner.infer` is not uniform in its result shape: with a
zero-row scores input it returns a bare empty `BoundingBoxList`, while in
every other case that completes without an exception it returns the pair of
the `BoundingBoxList` and the list `[kept boxes, zero array, predictions]`. -/
theorem fseq2_infer_shape_nonuniform (model : List Box → List ℚ → List ℚ)
    (applyTorchNMS : List (Box × ℚ) → ℚ → List (Box × ℚ))
    (iou_filtering : Option ℚ) (boxes : List Box) (scores : List ℚ)
    (scoreCols : ℕ) (boxes_sorted : Bool) (max_dt_boxes : ℕ) (threshold : ℚ) :
    (scores = [] →
      fseq2_infer model applyTorchNMS iou_filtering boxes scores scoreCols
          boxes_sorted max_dt_boxes threshold = .ok (.bare [])) ∧
    (scores ≠ [] →
      ∀ r, fseq2_infer model applyTorchNMS iou_filtering boxes scores scoreCols
          boxes_sorted max_dt_boxes threshold = .ok r →
        ∃ l kept zeros preds, r = .full l kept zeros preds) := by
  constructor
  · intro hs
    subst hs
    rfl
  · intro hs r hr
    unfold fseq2_infer at hr
    rw [if_neg (fun h => hs (List.eq_nil_of_length_eq_zero h))] at hr
    by_cases h1 : scoreCols > 1
    · rw [if_pos h1] at hr
      cases hr
    · rw [if_neg h1] at hr
      by_cases h2 : boxes.length ≠ scores.length
      · rw [if_pos h2] at hr
        cases hr
      · rw [if_neg h2] at hr
        exact ⟨_, _, _, _, (Except.ok.injEq _ _ ▸ hr).symm⟩

/-- Closed witness for `fseq2_infer_shape_nonuniform`: the empty-scores branch
at a concrete call, and the tuple-shaped result at a concrete nonempty call. -/
theorem fseq2_infer_shape_nonuniform_witness :
    (fseq2_infer (fun bs _ => bs.map (fun _ => 1)) (fun l _ => l) none
        [] [] 1 true 400 (1/10) = .ok (.bare [])) ∧
    (∃ l kept zeros preds,
      (FSeq2InferReturn.full [(⟨0, 0, 0, 10, 10, 1⟩ : BoundingBox)]
          [(⟨0, 0, 10, 10⟩ : Box)] [(0 : ℚ)] [(1 : ℚ)])
        = .full l kept zeros preds) :=
  ⟨(fseq2_infer_shape_nonuniform (fun bs _ => bs.map (fun _ => 1)) (fun l _ => l)
      none [] [] 1 true 400 (1/10)).1 rfl,
   (fseq2_infer_shape_nonuniform (fun bs _ => bs.map (fun _ => 1)) (fun l _ => l)
      none [⟨0, 0, 10, 10⟩] [1/2] 1 true 400 (1/10)).2 (by simp)
      (.full [⟨0, 0, 0, 10, 10, 1⟩] [⟨0, 0, 10, 10⟩] [0] [1])
      (by norm_num [fseq2_infer, fseq2Survivors, sortDescByScore, insertDesc, List.filter])⟩

/-- C2 counterexample: membership in the output of `FSeq2NMSLearner.infer` is
not decided by the network prediction alone.  With a network predicting `0.9`
for every candidate (above the threshold `0.1`) and the default
`iou_filtering = 0.8` (the two candidates are disjoint, so greedy NMS keeps
both and is instantiated as the identity), only one of the two candidates is
returned: the second, with score `0.04`, is removed by the `scores > 0.05`
pre-filter and never reaches the network. -/
theorem fseq2_infer_threshold_counterexample :
    (fseq2_infer (fun bs _ => bs.map (fun _ => (9 : ℚ)/10)) (fun l _ => l)
        (some (4/5)) [⟨0, 0, 100, 100⟩, ⟨200, 200, 310, 310⟩] [9/10, 1/25]
        1 false 400 (1/10)
      = .ok (.full [⟨0, 0, 0, 100, 100, 9/10⟩] [⟨0, 0, 100, 100⟩] [0] [9/10])) ∧
    ((fun (bs : List Box) (_ : List ℚ) => bs.map (fun _ => (9 : ℚ)/10))
        [⟨0, 0, 100, 100⟩, ⟨200, 200, 310, 310⟩] [9/10, 1/25] = [9/10, 9/10]) ∧
    ((9 : ℚ)/10 > 1/10) := by
  refine ⟨?_, by norm_num, by norm_num⟩
  norm_num [fseq2_infer, fseq2Survivors, sortDescByScore, insertDesc, List.filter]

/-- C2 (amended): for every valid input, the boxes that
`FSeq2NMSLearner.infer` returns are exactly the candidates that survive the
pre-filtering pipeline (score `> 0.05`, width and height `> 4`, greedy IoU
suppression by `apply_torchNMS` when `0 < iou_filtering < 1` — on by default
with `iou_filtering = 0.8` — and truncation to `max_dt_boxes`) and whose
network prediction over the surviving set exceeds the threshold argument,
each returned with the network's prediction as its score; the greedy
IoU-threshold suppression step thus still takes part in deciding
membership. -/
theorem fseq2_infer_scores_by_network (model : List Box → List ℚ → List ℚ)
    (applyTorchNMS : List (Box × ℚ) → ℚ → List (Box × ℚ))
    (iou_filtering : Option ℚ) (boxes : List Box) (scores : List ℚ)
    (scoreCols : ℕ) (boxes_sorted : Bool) (max_dt_boxes : ℕ) (threshold : ℚ)
    (h0 : scores ≠ []) (h1 : scoreCols ≤ 1) (h2 : boxes.length = scores.length) :
    fseq2_infer model applyTorchNMS iou_filtering boxes scores scoreCols
        boxes_sorted max_dt_boxes threshold
      = (let pairs := fseq2Survivors applyTorchNMS iou_filtering boxes scores
            boxes_sorted max_dt_boxes
         let preds := model (pairs.map (·.1)) (pairs.map (·.2))
         let kept := ((pairs.map (·.1)).zip preds).filter
            (fun p => decide (p.2 > threshold))
         .ok (.full
           (kept.map (fun p =>
              { name := 0, left := p.1.x1, top := p.1.y1,
                width := p.1.x2 - p.1.x1, height := p.1.y2 - p.1.y1,
                confidence := p.2 }))
           (kept.map (·.1)) (List.replicate pairs.length 0)
           (kept.map (·.2)))) := by
  unfold fseq2_infer
  rw [if_neg (fun h => h0 (List.eq_nil_of_length_eq_zero h)),
    if_neg (Nat.not_lt.mpr h1), if_neg (not_not_intro h2)]
  simp only [List.length_map]

/-- Closed witness for `fseq2_infer_scores_by_network` at a concrete
one-candidate input with a constant-one network and identity NMS. -/
theorem fseq2_infer_scores_by_network_witness :
    fseq2_infer (fun bs _ => bs.map (fun _ => (1 : ℚ))) (fun l _ => l) none
        [⟨0, 0, 10, 10⟩] [1/2] 1 true 400 (1/10)
      = (let pairs := fseq2Survivors (fun l _ => l) none
            [(⟨0, 0, 10, 10⟩ : Box)] [(1 : ℚ)/2] true 400
         let preds := (fun (bs : List Box) (_ : List ℚ) =>
            bs.map (fun _ => (1 : ℚ))) (pairs.map (·.1)) (pairs.map (·.2))
         let kept := ((pairs.map (·.1)).zip preds).filter
            (fun p => decide (p.2 > 1/10))
         .ok (.full
           (kept.map (fun p =>
              { name := 0, left := p.1.x1, top := p.1.y1,
                width := p.1.x2 - p.1.x1, height := p.1.y2 - p.1.y1,
                confidence := p.2 }))
           (kept.map (·.1)) (List.replicate pairs.length 0)
           (kept.map (·.2)))) :=
  fseq2_infer_scores_by_network (fun bs _ => bs.map (fun _ => 1)) (fun l _ => l)
    none [⟨0, 0, 10, 10⟩] [1/2] 1 true 400 (1/10) (by simp) (le_refl 1) rfl

lemma getD_range_of_lt (n i : ℕ) (h : i < n) (d : ℕ) :
    (List.range n).getD i d = i := by
  simp [List.getD, List.getElem?_range, h]

lemma getD_map_of_lt {α β : Type} (f : α → β) (l : List α) (i : ℕ)
    (h : i < l.length) (d : α) (d' : β) :
    (l.map f).getD i d' = f (l.getD i d) := by
  simp [List.getD, List.getElem?_map, List.getElem?_eq_getElem, h]

lemma featVec_length (iou : Box → Box → ℚ) (resolution : ℚ × ℚ) (A B : Box × ℚ) :
    (featVec iou resolution A B).length = geom_input_dim := rfl

/-- C4: for every nonempty set of n candidate boxes with scores and an image
resolution, `FSeq2NMSLearner.compute_geometrical_feats` returns the n×n×14
tensor holding one `geom_input_dim`-dimensional (= 14) geometric feature
vector for every ordered pair of candidates, together with its per-box
diagonal (each box paired with itself), of shape n×1×14, as the query
features. -/
theorem compute_geometrical_feats_shape (iou : Box → Box → ℚ) (boxes : List Box)
    (scores : List ℚ) (resolution : ℚ × ℚ)
    (hlen : boxes.length = scores.length) (_hne : boxes ≠ []) :
    (compute_geometrical_feats iou boxes scores resolution).2.length = boxes.length ∧
    (∀ row ∈ (compute_geometrical_feats iou boxes scores resolution).2,
      row.length = boxes.length ∧ ∀ f ∈ row, f.length = geom_input_dim) ∧
    (compute_geometrical_feats iou boxes scores resolution).1.length = boxes.length ∧
    (∀ i < boxes.length, ∀ j < boxes.length,
      (((compute_geometrical_feats iou boxes scores resolution).2.getD i []).getD j [])
        = featVec iou resolution ((boxes.zip scores).getD i default)
            ((boxes.zip scores).getD j default)) ∧
    (∀ i < boxes.length,
      (compute_geometrical_feats iou boxes scores resolution).1.getD i []
        = [(((compute_geometrical_feats iou boxes scores resolution).2.getD i []).getD i [])]) := by
  have hp : (boxes.zip scores).length = boxes.length := by
    rw [List.length_zip, hlen, min_self]
  refine ⟨?_, ?_, ?_, ?_, ?_⟩
  · simp [compute_geometrical_feats, hp]
  · intro row hrow
    simp only [compute_geometrical_feats, List.mem_map] at hrow
    obtain ⟨A, hA, rfl⟩ := hrow
    refine ⟨by simp [hp], ?_⟩
    intro f hf
    simp only [List.mem_map] at hf
    obtain ⟨B, hB, rfl⟩ := hf
    exact featVec_length iou resolution A B
  · simp [compute_geometrical_feats, hp]
  · intro i hi j hj
    rw [hp.symm] at hi hj
    simp only [compute_geometrical_feats]
    rw [getD_map_of_lt _ _ i hi default, getD_map_of_lt _ _ j hj default]
  · intro i hi
    rw [hp.symm] at hi
    simp only [compute_geometrical_feats]
    rw [getD_map_of_lt _ _ i (by simpa using hi) 0, getD_range_of_lt _ i (by simpa using hi)]

/-- Closed witness for `compute_geometrical_feats_shape` on two concrete
candidates. -/
theorem compute_geometrical_feats_shape_witness :
    (compute_geometrical_feats (fun _ _ => 1/2) [⟨0, 0, 10, 10⟩, ⟨1, 1, 8, 8⟩]
        [9/10, 3/5] (20, 20)).2.length = 2 ∧
    (∀ row ∈ (compute_geometrical_feats (fun _ _ => 1/2) [⟨0, 0, 10, 10⟩, ⟨1, 1, 8, 8⟩]
        [9/10, 3/5] (20, 20)).2,
      row.length = 2 ∧ ∀ f ∈ row, f.length = geom_input_dim) ∧
    (compute_geometrical_feats (fun _ _ => 1/2) [⟨0, 0, 10, 10⟩, ⟨1, 1, 8, 8⟩]
        [9/10, 3/5] (20, 20)).1.length = 2 ∧
    (∀ i < 2, ∀ j < 2,
      (((compute_geometrical_feats (fun _ _ => 1/2) [⟨0, 0, 10, 10⟩, ⟨1, 1, 8, 8⟩]
          [9/10, 3/5] (20, 20)).2.getD i []).getD j [])
        = featVec (fun _ _ => 1/2) (20, 20)
            ((([⟨0, 0, 10, 10⟩, ⟨1, 1, 8, 8⟩] : List Box).zip [(9 : ℚ)/10, 3/5]).getD i default)
            ((([⟨0, 0, 10, 10⟩, ⟨1, 1, 8, 8⟩] : List Box).zip [(9 : ℚ)/10, 3/5]).getD j default)) ∧
    (∀ i < 2,
      (compute_geometrical_feats (fun _ _ => 1/2) [⟨0, 0, 10, 10⟩, ⟨1, 1, 8, 8⟩]
          [9/10, 3/5] (20, 20)).1.getD i []
        = [(((compute_geometrical_feats (fun _ _ => 1/2) [⟨0, 0, 10, 10⟩, ⟨1, 1, 8, 8⟩]
              [9/10, 3/5] (20, 20)).2.getD i []).getD i [])]) :=
  compute_geometrical_feats_shape (fun _ _ => 1/2) [⟨0, 0, 10, 10⟩, ⟨1, 1, 8, 8⟩]
    [9/10, 3/5] (20, 20) rfl (by simp)
